import Mathlib

/-!
# Verification of the vertex_rag_pipeline ingestion / splitting / query orchestration

Shallow embedding of `app/utils/vector_store_interface.py` and
`app/utils/text_processing.py` from the repository
`webapplications-4-lostmindai.com`.

The external Vertex AI index is modelled as an oracle ("Index Port"): a
function from the batch call index and the batch contents to either the
list of assigned ids or an error.  The embedding of each orchestrator
returns, besides the value the Python caller would see (normal return or
raised exception, as an `Except`), the trace of batches issued to the port
and the final value of the `added_count` accumulator, which the source
logs.
-/

namespace VertexRag

/-- Errors the external Index Port can raise, as caught by
`add_documents_to_vector_store` (`except FailedPrecondition`,
`except GoogleAPIError`, `except Exception` in the source). -/
inductive PortError where
  | failedPrecondition
  | googleAPIError
  | otherError
  deriving DecidableEq, Repr

/-- Exceptions `add_documents_to_vector_store` can let escape to its
caller: the `RuntimeError` it raises on `FailedPrecondition` (line 53),
the re-raised `GoogleAPIError` (line 56), the re-raised generic exception
(line 59), and the `ValueError` Python's `range` raises when the step
`batch_size` is zero. -/
inductive IngestError where
  | runtimeError
  | googleAPIError
  | otherError
  | valueError
  deriving DecidableEq, Repr

/-- How the `except` clauses of `add_documents_to_vector_store` translate
a port error into the exception seen by the caller: `FailedPrecondition`
becomes a `RuntimeError`, everything else is re-raised unchanged. -/
def translate : PortError → IngestError
  | .failedPrecondition => .runtimeError
  | .googleAPIError => .googleAPIError
  | .otherError => .otherError

/-- An Index Port oracle for ingestion: given the 0-based index of the
batch call and the batch contents, return the assigned ids or raise. -/
def IndexPort (α : Type) : Type := Nat → List α → Except PortError (List String)

/-- The batch partition computed by the loop
`for i in range(0, total_docs, batch_size): batch = documents[i : i + batch_size]`
(source lines 37–38).  For `bs ≥ 1`,
`d :: ds.take (bs - 1) = (d :: ds).take bs` and
`ds.drop (bs - 1) = (d :: ds).drop bs`, so each batch is the slice
`documents[i : i + bs]` in original order. -/
def makeBatches (bs : Nat) : List α → List (List α)
  | [] => []
  | d :: ds => (d :: ds.take (bs - 1)) :: makeBatches bs (ds.drop (bs - 1))
termination_by l => l.length
decreasing_by
  simp only [List.length_drop, List.length_cons]
  omega

/-- Total number of elements in a list of batches. -/
def sumLens (l : List (List α)) : Nat := (l.map List.length).sum

/-- Everything observable about one run of
`add_documents_to_vector_store`: the Python return value or escaped
exception, the trace of batches issued to the Index Port, in order, and
the final value of the `added_count` accumulator (which the source logs,
lines 48 and 55). -/
structure IngestRun (α : Type) where
  result : Except IngestError Unit
  issued : List (List α)
  added_count : Nat
  deriving Repr

/-- The `for` loop of `add_documents_to_vector_store` (source lines
37–46): issue each slice `documents[i : i + bs]` to the port, adding
`len(batch)` to `added_count` after each successful call; stop at the
first port error.  Returns the issued-batch trace, the final
`added_count`, and the port error if one was raised. -/
def ingestLoop (port : IndexPort α) (bs : Nat) :
    Nat → List α → Nat → List (List α) × Nat × Option PortError
  | _, [], added => ([], added, none)
  | batchIdx, d :: ds, added =>
    let batch := d :: ds.take (bs - 1)
    match port batchIdx batch with
    | .error e => ([batch], added, some e)
    | .ok _ =>
      let r := ingestLoop port bs (batchIdx + 1) (ds.drop (bs - 1)) (added + batch.length)
      (batch :: r.1, r.2.1, r.2.2)
termination_by _ remaining _ => remaining.length
decreasing_by
  simp only [List.length_drop, List.length_cons]
  omega

/-- Embedding of `add_documents_to_vector_store` (source lines 15–59).
An empty `documents` list returns immediately after a warning (lines
27–29), issuing nothing.  `batch_size = 0` makes Python's
`range(0, n, 0)` raise `ValueError` before any port call.  Otherwise the
batching loop runs, and the `except` clauses turn a port error into the
exception `translate` describes; on success the function returns `None`
(here `Except.ok ()`). -/
def add_documents_to_vector_store (port : IndexPort α) (documents : List α)
    (batch_size : Nat) : IngestRun α :=
  match documents with
  | [] => ⟨.ok (), [], 0⟩
  | d :: ds =>
    if batch_size = 0 then ⟨.error .valueError, [], 0⟩
    else
      let r := ingestLoop port batch_size 0 (d :: ds) 0
      ⟨match r.2.2 with
        | none => .ok ()
        | some e => .error (translate e), r.1, r.2.1⟩

/-- The batches concatenate back to the original document list: batching
preserves content and order. -/
theorem makeBatches_flatten (bs : Nat) (l : List α) :
    (makeBatches bs l).flatten = l := by
  induction l using makeBatches.induct bs with
  | case1 => simp [makeBatches]
  | case2 d ds ih =>
    rw [makeBatches]
    simp only [List.flatten_cons, ih, List.cons_append]
    rw [List.take_append_drop]

/-- Every batch holds at most `bs` documents. -/
theorem makeBatches_sizes (bs : Nat) (hbs : 0 < bs) (l : List α) :
    ∀ b ∈ makeBatches bs l, b.length ≤ bs := by
  induction l using makeBatches.induct bs with
  | case1 => simp [makeBatches]
  | case2 d ds ih =>
    rw [makeBatches]
    intro b hb
    rcases List.mem_cons.mp hb with h | h
    · subst h
      simp only [List.length_cons, List.length_take]
      omega
    · exact ih b h

/-- The number of batches is `⌈N / bs⌉`, computed by the same formula the
source logs at line 39: `(total_docs + batch_size - 1) // batch_size`. -/
theorem makeBatches_length (bs : Nat) (hbs : 0 < bs) (l : List α) :
    (makeBatches bs l).length = (l.length + bs - 1) / bs := by
  induction l using makeBatches.induct bs with
  | case1 =>
    rw [makeBatches]
    simp only [List.length_nil]
    rw [Nat.div_eq_of_lt (by omega)]
  | case2 d ds ih =>
    rw [makeBatches]
    simp only [List.length_cons, ih, List.length_drop]
    rw [show ds.length + 1 + bs - 1 = ds.length + bs by omega, Nat.add_div_right _ hbs]
    rcases le_or_lt (bs - 1) ds.length with h | h
    · rw [show ds.length - (bs - 1) + bs - 1 = ds.length by omega]
    · rw [show ds.length - (bs - 1) = 0 by omega]
      rw [Nat.div_eq_of_lt (by omega), Nat.div_eq_of_lt (by omega)]

/-- When the port succeeds on every call, the loop issues exactly the
batch partition, counts every document into `added_count`, and records no
error. -/
theorem ingestLoop_ok (port : IndexPort α) (bs : Nat)
    (hok : ∀ i b, ∃ ids, port i b = Except.ok ids)
    (j : Nat) (docs : List α) (added : Nat) :
    ingestLoop port bs j docs added = (makeBatches bs docs, added + docs.length, none) := by
  induction j, docs, added using ingestLoop.induct port bs with
  | case1 j added => simp [ingestLoop, makeBatches]
  | case2 j d ds added batch e herr =>
    obtain ⟨ids, hids⟩ := hok j batch
    rw [hids] at herr
    cases herr
  | case3 j d ds added batch ids hids ih =>
    rw [ingestLoop, makeBatches]
    simp only [hids, ih, Prod.mk.injEq, List.cons.injEq, and_true, true_and]
    simp only [batch, List.length_drop, List.length_cons, List.length_take]
    omega

/-- If the port succeeds on the first `k` batches and raises on batch
`k`, the loop issues exactly the first `k + 1` batches (the failing one
included, further ones never), counts only the first `k` batches into
`added_count`, and records the error. -/
theorem ingestLoop_fail (port : IndexPort α) (bs : Nat) (e : PortError) :
    ∀ (k : Nat) (docs : List α) (j added : Nat),
      k < (makeBatches bs docs).length →
      (∀ i, i < k → ∃ ids, port (j + i) ((makeBatches bs docs).getD i []) = Except.ok ids) →
      port (j + k) ((makeBatches bs docs).getD k []) = Except.error e →
      ingestLoop port bs j docs added =
        ((makeBatches bs docs).take (k + 1),
         added + sumLens ((makeBatches bs docs).take k), some e) := by
  intro k
  induction k with
  | zero =>
    intro docs j added hk _ hfail
    match docs with
    | [] => simp [makeBatches] at hk
    | d :: ds =>
      rw [makeBatches] at hfail ⊢
      simp only [List.getD_cons_zero, Nat.add_zero] at hfail
      rw [ingestLoop]
      simp only [hfail]
      simp [sumLens]
  | succ k ih =>
    intro docs j added hk hok hfail
    match docs with
    | [] => simp [makeBatches] at hk
    | d :: ds =>
      rw [makeBatches] at hk hok hfail ⊢
      obtain ⟨ids, hids⟩ := hok 0 (Nat.succ_pos k)
      simp only [List.getD_cons_zero, Nat.add_zero] at hids
      rw [ingestLoop]
      simp only [hids]
      have ih' := ih (ds.drop (bs - 1)) (j + 1) (added + (d :: ds.take (bs - 1)).length)
        (by simpa using Nat.lt_of_succ_lt_succ (by simpa using hk))
        (by
          intro i hi
          obtain ⟨ids', hids'⟩ := hok (i + 1) (Nat.succ_lt_succ hi)
          refine ⟨ids', ?_⟩
          simpa [Nat.add_assoc, Nat.add_comm 1 i] using hids')
        (by simpa [Nat.add_assoc, Nat.add_comm 1 k] using hfail)
      simp only [ih', Prod.mk.injEq, List.take_succ_cons, List.cons.injEq, true_and]
      simp [sumLens, List.length_cons, List.length_take]
      omega

/-- C1: for every non-empty list of `N` chunks and every `batch_size = B > 0`,
when the Index Port succeeds on every call, `add_documents_to_vector_store`
issues exactly `⌈N/B⌉ = (N + B - 1) / B` batches, each of size at most `B`,
sequentially in the original chunk order (their concatenation is the original
list), and the total succeeded count `added_count` equals `N`. -/
theorem ingest_partitions_and_counts (port : IndexPort α) (docs : List α) (bs : Nat)
    (hne : docs ≠ []) (hbs : 0 < bs)
    (hok : ∀ i b, ∃ ids, port i b = Except.ok ids) :
    (add_documents_to_vector_store port docs bs).issued.length = (docs.length + bs - 1) / bs ∧
    (∀ b ∈ (add_documents_to_vector_store port docs bs).issued, b.length ≤ bs) ∧
    (add_documents_to_vector_store port docs bs).issued.flatten = docs ∧
    (add_documents_to_vector_store port docs bs).added_count = docs.length ∧
    (add_documents_to_vector_store port docs bs).result = Except.ok () := by
  match docs, hne with
  | d :: ds, _ =>
    have hbs' : bs ≠ 0 := Nat.pos_iff_ne_zero.mp hbs
    have hloop := ingestLoop_ok port bs hok 0 (d :: ds) 0
    have hrun : add_documents_to_vector_store port (d :: ds) bs
        = ⟨Except.ok (), makeBatches bs (d :: ds), (d :: ds).length⟩ := by
      simp only [add_documents_to_vector_store, if_neg hbs', hloop, Nat.zero_add]
    rw [hrun]
    exact ⟨makeBatches_length bs hbs _, makeBatches_sizes bs hbs _,
      makeBatches_flatten bs _, rfl, rfl⟩

/-- Witness for C1 at the spec's worked example: 7 chunks, batch size 3. -/
theorem ingest_partitions_and_counts_witness :
    ([1, 2, 3, 4, 5, 6, 7] : List Nat) ≠ [] ∧ (0 : Nat) < 3 ∧
    (add_documents_to_vector_store (fun _ _ => Except.ok []) ([1, 2, 3, 4, 5, 6, 7] : List Nat)
        3).issued.length = 3 ∧
    (add_documents_to_vector_store (fun _ _ => Except.ok []) ([1, 2, 3, 4, 5, 6, 7] : List Nat)
        3).added_count = 7 := by
  have h := ingest_partitions_and_counts (fun _ _ => Except.ok [])
    ([1, 2, 3, 4, 5, 6, 7] : List Nat) 3 (by decide) (by decide) (fun _ _ => ⟨[], rfl⟩)
  exact ⟨by decide, by decide, h.1, h.2.2.2.1⟩

/-- C2: if the Index Port raises `FailedPrecondition` on batch `k` after
succeeding on the `k` batches before it, `add_documents_to_vector_store`
raises `RuntimeError`, never issues any batch past `k`, and its
`added_count` (the successes it logs) counts exactly the `k` completed
batches. -/
theorem ingest_failed_precondition_halts (port : IndexPort α) (docs : List α) (bs k : Nat)
    (hbs : 0 < bs)
    (hk : k < (makeBatches bs docs).length)
    (hok : ∀ i, i < k → ∃ ids, port i ((makeBatches bs docs).getD i []) = Except.ok ids)
    (hfail : port k ((makeBatches bs docs).getD k []) = Except.error .failedPrecondition) :
    (add_documents_to_vector_store port docs bs).result = Except.error IngestError.runtimeError ∧
    (add_documents_to_vector_store port docs bs).issued = (makeBatches bs docs).take (k + 1) ∧
    (add_documents_to_vector_store port docs bs).added_count
      = sumLens ((makeBatches bs docs).take k) := by
  match docs with
  | [] => rw [makeBatches] at hk; cases hk
  | d :: ds =>
    have hbs' : bs ≠ 0 := Nat.pos_iff_ne_zero.mp hbs
    have hloop := ingestLoop_fail port bs .failedPrecondition k (d :: ds) 0 0 hk
      (by intro i hi; simpa using hok i hi) (by simpa using hfail)
    have hrun : add_documents_to_vector_store port (d :: ds) bs
        = ⟨Except.error IngestError.runtimeError, (makeBatches bs (d :: ds)).take (k + 1),
            sumLens ((makeBatches bs (d :: ds)).take k)⟩ := by
      simp only [add_documents_to_vector_store, if_neg hbs', hloop, Nat.zero_add]
      rfl
    rw [hrun]
    exact ⟨rfl, rfl, rfl⟩

/-- Witness for C2: 8 chunks, batch size 2 (so 4 batches), port failing with
`FailedPrecondition` on batch index 1 (the second batch): `RuntimeError`,
only batches 0 and 1 issued, and only batch 0's 2 documents counted. -/
theorem ingest_failed_precondition_halts_witness :
    (0 : Nat) < 2 ∧
    (add_documents_to_vector_store
        (fun i _ => if i = 1 then Except.error PortError.failedPrecondition else Except.ok [])
        ([1, 2, 3, 4, 5, 6, 7, 8] : List Nat) 2).result
      = Except.error IngestError.runtimeError ∧
    (add_documents_to_vector_store
        (fun i _ => if i = 1 then Except.error PortError.failedPrecondition else Except.ok [])
        ([1, 2, 3, 4, 5, 6, 7, 8] : List Nat) 2).issued = [[1, 2], [3, 4]] ∧
    (add_documents_to_vector_store
        (fun i _ => if i = 1 then Except.error PortError.failedPrecondition else Except.ok [])
        ([1, 2, 3, 4, 5, 6, 7, 8] : List Nat) 2).added_count = 2 := by
  have hk : 1 < (makeBatches 2 ([1, 2, 3, 4, 5, 6, 7, 8] : List Nat)).length := by
    simp [makeBatches]
  have h := ingest_failed_precondition_halts
    (fun i _ => if i = 1 then Except.error PortError.failedPrecondition else Except.ok [])
    ([1, 2, 3, 4, 5, 6, 7, 8] : List Nat) 2 1 (by decide) hk
    (by
      intro i hi
      have hi0 : i = 0 := by omega
      subst hi0
      exact ⟨[], rfl⟩)
    rfl
  refine ⟨by decide, h.1, ?_, ?_⟩
  · rw [h.2.1]
    simp [makeBatches]
  · rw [h.2.2]
    simp [makeBatches, sumLens]

/-- C8 (counterexample): on all-success runs the Python function returns
`None` — the caller-visible return value is the same for a 7-chunk run and a
2-chunk run, so the return value carries no attempted/succeeded totals and
no per-batch detail (those appear only in logs): it is not a `RunSummary`. -/
theorem ingest_returns_unit_not_summary :
    (add_documents_to_vector_store (fun _ _ => Except.ok [])
        ([1, 2, 3, 4, 5, 6, 7] : List Nat) 3).result
      = (add_documents_to_vector_store (fun _ _ => Except.ok [])
        ([1, 2] : List Nat) 3).result ∧
    ([1, 2, 3, 4, 5, 6, 7] : List Nat).length ≠ ([1, 2] : List Nat).length := by
  constructor
  · simp [add_documents_to_vector_store, ingestLoop]
  · decide

/-- C8 (amended): for every non-empty chunk list, when every batch upsert
succeeds the operation returns normally (Python `None`, `Except.ok ()`); the
total attempted and succeeded (`added_count = N`) and the per-batch detail
(the issued-batch trace) are observable in its logging and port interaction,
not in the returned value. -/
theorem ingest_all_success_run (port : IndexPort α) (docs : List α) (bs : Nat)
    (hne : docs ≠ []) (hbs : 0 < bs)
    (hok : ∀ i b, ∃ ids, port i b = Except.ok ids) :
    (add_documents_to_vector_store port docs bs).result = Except.ok () ∧
    (add_documents_to_vector_store port docs bs).added_count = docs.length ∧
    (add_documents_to_vector_store port docs bs).issued = makeBatches bs docs := by
  have h := ingest_partitions_and_counts port docs bs hne hbs hok
  refine ⟨h.2.2.2.2, h.2.2.2.1, ?_⟩
  match docs, hne with
  | d :: ds, _ =>
    have hbs' : bs ≠ 0 := Nat.pos_iff_ne_zero.mp hbs
    have hloop := ingestLoop_ok port bs hok 0 (d :: ds) 0
    have hrun : add_documents_to_vector_store port (d :: ds) bs
        = ⟨Except.ok (), makeBatches bs (d :: ds), (d :: ds).length⟩ := by
      simp only [add_documents_to_vector_store, if_neg hbs', hloop, Nat.zero_add]
    rw [hrun]

/-- Witness for the amended C8: 5 chunks, batch size 2, all batches succeed. -/
theorem ingest_all_success_run_witness :
    ([1, 2, 3, 4, 5] : List Nat) ≠ [] ∧ (0 : Nat) < 2 ∧
    (add_documents_to_vector_store (fun _ _ => Except.ok [])
        ([1, 2, 3, 4, 5] : List Nat) 2).result = Except.ok () ∧
    (add_documents_to_vector_store (fun _ _ => Except.ok [])
        ([1, 2, 3, 4, 5] : List Nat) 2).added_count = 5 := by
  have h := ingest_all_success_run (fun _ _ => Except.ok [])
    ([1, 2, 3, 4, 5] : List Nat) 2 (by decide) (by decide) (fun _ _ => ⟨[], rfl⟩)
  exact ⟨by decide, by decide, h.1, h.2.1⟩

/-- C10: calling `add_documents_to_vector_store` with an empty documents
list returns immediately (lines 27–29 of the source): no exception escapes,
no batch is ever issued to the Index Port, and nothing is counted. -/
theorem ingest_empty_is_no_op (port : IndexPort α) (bs : Nat) :
    add_documents_to_vector_store port ([] : List α) bs
      = ⟨Except.ok (), [], 0⟩ :=
  rfl

/-! ## Query orchestrator (`query_vector_store`, source lines 61–108)

Scores are floats in the source; the orchestrator never computes with
them — it only receives them from the port and logs the first one — so
they are modelled as integers. -/

/-- One search hit as delivered by the Index Port: the chunk text, the
`source` metadata entry the source logs at line 96, and the similarity
score. -/
structure ScoredDoc where
  text : String
  source : String
  score : Int
  deriving DecidableEq, Repr

/-- Errors the similarity search can raise, matching the two `except`
clauses at lines 98 and 103. -/
inductive SearchError where
  | googleAPIError
  | otherError
  deriving DecidableEq, Repr

/-- The observable events `query_vector_store` emits: each `logger` call of
lines 75, 78–80, 94, 96, 99 and 104, and the `print(..., file=sys.stderr)`
of lines 102 and 106. -/
inductive QLog where
  | errNoDeployedId
  | infoSearch (query : String)
  | infoTarget (deployedId endpointId : String)
  | infoK (k : Nat)
  | infoFound (n : Nat)
  | debugTop (score : Int) (source : String)
  | errApiLogged
  | errApiPrinted
  | errUnexpectedLogged
  | errUnexpectedPrinted
  deriving DecidableEq, Repr

/-- Everything observable about one `query_vector_store` call: the Python
return value or escaped exception, and the emitted log/stderr events in
order. -/
structure QueryRun where
  result : Except IngestError (List ScoredDoc)
  logs : List QLog
  deriving Repr

/-- Embedding of `query_vector_store` (source lines 61–108).  The external
similarity search is an oracle from the query string and `k` to the
delivered hits or an error.  A missing (unset or empty)
`VECTOR_SEARCH_DEPLOYED_INDEX_ID` raises `ValueError` before any port call
(lines 74–76); a search error is logged and swallowed and the initial empty
`results` list is returned (lines 82–108); a successful search's results
are returned exactly as delivered. -/
def query_vector_store (deployedIndexId : Option String) (endpointId : String)
    (search : String → Nat → Except SearchError (List ScoredDoc))
    (query : String) (k : Nat) : QueryRun :=
  match deployedIndexId with
  | none => ⟨Except.error IngestError.valueError, [QLog.errNoDeployedId]⟩
  | some did =>
    if did = "" then ⟨Except.error IngestError.valueError, [QLog.errNoDeployedId]⟩
    else
      let pre := [QLog.infoSearch query, QLog.infoTarget did endpointId, QLog.infoK k]
      match search query k with
      | .ok rs =>
        ⟨Except.ok rs,
          pre ++ [QLog.infoFound rs.length] ++
            (match rs with
             | [] => []
             | r :: _ => [QLog.debugTop r.score r.source])⟩
      | .error .googleAPIError =>
        ⟨Except.ok [], pre ++ [QLog.errApiLogged, QLog.errApiPrinted]⟩
      | .error .otherError =>
        ⟨Except.ok [], pre ++ [QLog.errUnexpectedLogged, QLog.errUnexpectedPrinted]⟩

/-- Whether a score sequence is non-increasing (each element at most its
predecessor). -/
def nonIncreasingB : List Int → Bool
  | [] => true
  | [_] => true
  | a :: b :: t => decide (b ≤ a) && nonIncreasingB (b :: t)

/-- A score sequence is non-increasing. -/
def nonIncreasing (scores : List Int) : Prop :=
  nonIncreasingB scores = true

instance (scores : List Int) : Decidable (nonIncreasing scores) :=
  inferInstanceAs (Decidable (nonIncreasingB scores = true))

/-- C3: with the deployed-index id configured, if the Index Port raises any
error during the similarity search, `query_vector_store` does not propagate
an exception to the caller: it returns the (empty) `results` list, and it
logs the error — the emitted events are exactly the three pre-search info
lines followed by the `logger.exception` and stderr `print` events of the
`except` clause matching the raised error (lines 98–106). -/
theorem query_error_returns_empty (did : String) (endpointId : String)
    (search : String → Nat → Except SearchError (List ScoredDoc))
    (query : String) (k : Nat) (e : SearchError)
    (hdid : did ≠ "") (herr : search query k = Except.error e) :
    (query_vector_store (some did) endpointId search query k).result = Except.ok [] ∧
    (query_vector_store (some did) endpointId search query k).logs
      = [QLog.infoSearch query, QLog.infoTarget did endpointId, QLog.infoK k] ++
        (match e with
         | SearchError.googleAPIError => [QLog.errApiLogged, QLog.errApiPrinted]
         | SearchError.otherError => [QLog.errUnexpectedLogged, QLog.errUnexpectedPrinted]) := by
  cases e <;>
    simp [query_vector_store, if_neg hdid, herr]

/-- Witness for C3: a search that raises `GoogleAPIError` yields an empty
result list, not an exception, with the API-error log and stderr events
emitted after the three info lines. -/
theorem query_error_returns_empty_witness :
    ("deployed-idx" : String) ≠ "" ∧
    (fun (_ : String) (_ : Nat) =>
        (Except.error SearchError.googleAPIError : Except SearchError (List ScoredDoc)))
        "what is RAG" 5 = Except.error SearchError.googleAPIError ∧
    (query_vector_store (some "deployed-idx") "endpoint"
        (fun _ _ => Except.error SearchError.googleAPIError) "what is RAG" 5).result
      = Except.ok [] ∧
    (query_vector_store (some "deployed-idx") "endpoint"
        (fun _ _ => Except.error SearchError.googleAPIError) "what is RAG" 5).logs
      = [QLog.infoSearch "what is RAG", QLog.infoTarget "deployed-idx" "endpoint",
         QLog.infoK 5, QLog.errApiLogged, QLog.errApiPrinted] := by
  have h := query_error_returns_empty "deployed-idx" "endpoint"
    (fun _ _ => Except.error SearchError.googleAPIError) "what is RAG" 5
    SearchError.googleAPIError (by decide) rfl
  exact ⟨by decide, rfl, h.1, h.2⟩

/-- C9 (counterexample): the source performs no defensive validation of the
score order.  A port delivering scores `[5, 9]` (violating non-increasing
order) produces exactly the same log/stderr events as a port delivering
`[5, 4]` (respecting it) — the head elements agree, and the source only
logs the result count and the head's score and source — so nothing is
logged on violation, and the violating results are returned as delivered,
unsorted. -/
theorem query_no_score_validation_counterexample :
    ¬ nonIncreasing [5, 9] ∧
    (query_vector_store (some "d") "e"
        (fun _ _ => Except.ok [⟨"a", "s", 5⟩, ⟨"b", "s", 9⟩]) "q" 2).logs
      = (query_vector_store (some "d") "e"
        (fun _ _ => Except.ok [⟨"a", "s", 5⟩, ⟨"b", "s", 4⟩]) "q" 2).logs ∧
    (query_vector_store (some "d") "e"
        (fun _ _ => Except.ok [⟨"a", "s", 5⟩, ⟨"b", "s", 9⟩]) "q" 2).result
      = Except.ok [⟨"a", "s", 5⟩, ⟨"b", "s", 9⟩] := by
  refine ⟨by decide, ?_, ?_⟩ <;> rfl

/-- C9 (amended): on a successful search `query_vector_store` returns the
hits exactly as the Index Port delivered them — it does not re-sort — and
it performs no validation of the score order: its emitted events are fully
determined by the query, ids, `k`, the number of hits and the head hit's
score and source, so two deliveries agreeing on those emit identical events
whether or not their score sequences are non-increasing. -/
theorem query_returns_as_delivered_no_validation (did endpointId : String)
    (s₁ s₂ : String → Nat → Except SearchError (List ScoredDoc))
    (query : String) (k : Nat) (rs₁ rs₂ : List ScoredDoc)
    (hdid : did ≠ "") (h₁ : s₁ query k = Except.ok rs₁) (h₂ : s₂ query k = Except.ok rs₂) :
    (query_vector_store (some did) endpointId s₁ query k).result = Except.ok rs₁ ∧
    (rs₁.length = rs₂.length →
      (rs₁.map fun r => (r.score, r.source)).head? = (rs₂.map fun r => (r.score, r.source)).head? →
      (query_vector_store (some did) endpointId s₁ query k).logs
        = (query_vector_store (some did) endpointId s₂ query k).logs) := by
  constructor
  · simp [query_vector_store, if_neg hdid, h₁]
  · intro hlen hhead
    match rs₁, rs₂, hlen, hhead with
    | [], [], _, _ =>
      simp [query_vector_store, if_neg hdid, h₁, h₂]
    | r₁ :: t₁, r₂ :: t₂, hlen, hhead =>
      simp only [List.map_cons, List.head?_cons, Option.some.injEq, Prod.mk.injEq] at hhead
      simp only [List.length_cons] at hlen
      simp [query_vector_store, if_neg hdid, h₁, h₂, hlen, hhead.1, hhead.2]

/-! ## Splitter (`split_documents`, `app/utils/text_processing.py`)

`split_documents` delegates the actual splitting to the third-party
`RecursiveCharacterTextSplitter` (langchain), whose code is not part of
this repository, so the splitting algorithm is modelled from the spec. -/

/-- The repository's configured chunk size (`config.py`, line 35). -/
def CHUNK_SIZE : Nat := 1000

/-- The repository's configured chunk overlap (`config.py`, line 37). -/
def CHUNK_OVERLAP : Nat := 100

/-- A document as handed to the splitter: an id derived from the source
path, and its text (modelled as a character list; chunk sizes are
character counts, `length_function=len`). -/
structure RawDocument where
  id : String
  text : List Char
  deriving DecidableEq, Repr

/-- A chunk produced by the splitter: provenance (parent id), the
character offset of its first character in the parent text
(`add_start_index=True`), and its text. -/
structure Chunk where
  parent_id : String
  start_offset : Nat
  text : List Char
  deriving DecidableEq, Repr

/-- The configuration failure of the splitting contract. -/
inductive SplitFailure where
  | configError
  deriving DecidableEq, Repr

/-- Modelled from the spec: the chunking of one document's text by the
external `RecursiveCharacterTextSplitter`, which is absent from `src/`.
Per spec §4.2/§8, chunks are windows of at most `size` characters whose
consecutive starts differ by `size - overlap` (each chunk after the first
begins `overlap` characters inside its predecessor), the last window
absorbing the remaining shorter text; §8's worked example ("A"×2500,
size 1000, overlap 100 → offsets 0, 900, 1800) fixes exactly this
placement.  The spec's separator preferences only move boundaries within
the same window discipline and are not modelled. -/
def windowChunks (pid : String) (size overlap : Nat) (h : overlap < size) :
    Nat → List Char → List Chunk
  | off, s =>
    if s.length ≤ size then [⟨pid, off, s⟩]
    else
      ⟨pid, off, s.take size⟩ ::
        windowChunks pid size overlap h (off + (size - overlap)) (s.drop (size - overlap))
termination_by _ s => s.length
decreasing_by
  simp only [List.length_drop]
  omega

/-- Modelled from the spec: splitting one document.  Empty documents
produce zero chunks (spec §4.2); otherwise the window chunking starts at
offset 0. -/
def splitText (pid : String) (size overlap : Nat) (h : overlap < size)
    (text : List Char) : List Chunk :=
  if text = [] then [] else windowChunks pid size overlap h 0 text

/-- Modelled from the spec: `split(documents, chunk_size, chunk_overlap)`.
The constraint `chunk_overlap < chunk_size` is checked first and its
violation fails the whole call with `ConfigError` for all inputs,
producing no chunks; otherwise every document is split and the chunks are
concatenated in document order. -/
def split_documents (chunk_size chunk_overlap : Nat)
    (documents : List RawDocument) : Except SplitFailure (List Chunk) :=
  if g : chunk_size ≤ chunk_overlap then .error .configError
  else .ok (documents.flatMap fun d =>
    splitText d.id chunk_size chunk_overlap (by omega) d.text)

/-- Concatenate chunk texts with the first `overlap` characters removed
from every chunk after the first — the reconstruction of the round-trip
law. -/
def dechunk (overlap : Nat) : List (List Char) → List Char
  | [] => []
  | t :: ts => t ++ (ts.map (List.drop overlap)).flatten

/-- `windowChunks` never returns an empty chunk list. -/
theorem windowChunks_ne_nil (pid : String) (size overlap : Nat) (h : overlap < size)
    (off : Nat) (s : List Char) :
    windowChunks pid size overlap h off s ≠ [] := by
  rw [windowChunks]
  split <;> simp

/-- Dropping `overlap` characters from every window (the first included)
and concatenating yields the text with its first `overlap` characters
dropped. -/
theorem windowChunks_drop_flatten (pid : String) (size overlap : Nat) (h : overlap < size) :
    ∀ (off : Nat) (s : List Char),
      (((windowChunks pid size overlap h off s).map Chunk.text).map
        (List.drop overlap)).flatten = s.drop overlap := by
  intro off s
  induction off, s using windowChunks.induct pid size overlap h with
  | case1 off s hle =>
    rw [windowChunks, if_pos hle]
    simp
  | case2 off s hle ih =>
    rw [windowChunks, if_neg hle]
    simp only [List.map_cons, List.flatten_cons, ih, List.drop_drop]
    rw [show size - overlap + overlap = size by omega]
    conv_rhs => rw [← List.take_append_drop size s]
    rw [List.drop_append_of_le_length (by
      simp only [List.length_take]
      omega)]

/-- The windows reconstruct the text they were cut from: the first window
followed by each later window with its `overlap`-character lead-in removed
is the original text. -/
theorem windowChunks_dechunk (pid : String) (size overlap : Nat) (h : overlap < size)
    (off : Nat) (s : List Char) :
    dechunk overlap ((windowChunks pid size overlap h off s).map Chunk.text) = s := by
  rw [windowChunks]
  split
  · simp [dechunk]
  · simp only [List.map_cons, dechunk, windowChunks_drop_flatten, List.drop_drop]
    rw [show size - overlap + overlap = size by omega, List.take_append_drop]

/-- Every chunk of a window chunking starts at or after the starting
offset. -/
theorem windowChunks_offset_lb (pid : String) (size overlap : Nat) (h : overlap < size) :
    ∀ (off : Nat) (s : List Char),
      ∀ c ∈ windowChunks pid size overlap h off s, off ≤ c.start_offset := by
  intro off s
  induction off, s using windowChunks.induct pid size overlap h with
  | case1 off s hle =>
    rw [windowChunks, if_pos hle]
    intro c hc
    rw [List.mem_singleton] at hc
    subst hc
    exact Nat.le_refl off
  | case2 off s hle ih =>
    rw [windowChunks, if_neg hle]
    intro c hc
    rcases List.mem_cons.mp hc with rfl | hmem
    · exact Nat.le_refl off
    · exact le_trans (Nat.le_add_right off (size - overlap)) (ih c hmem)

/-- The start offsets of a window chunking are strictly increasing. -/
theorem windowChunks_offsets_strict (pid : String) (size overlap : Nat)
    (h : overlap < size) :
    ∀ (off : Nat) (s : List Char),
      (windowChunks pid size overlap h off s).Pairwise
        (fun a b => a.start_offset < b.start_offset) := by
  intro off s
  induction off, s using windowChunks.induct pid size overlap h with
  | case1 off s hle =>
    rw [windowChunks, if_pos hle]
    simp
  | case2 off s hle ih =>
    rw [windowChunks, if_neg hle]
    rw [List.pairwise_cons]
    refine ⟨?_, ih⟩
    intro c hc
    have hlb := windowChunks_offset_lb pid size overlap h
      (off + (size - overlap)) (s.drop (size - overlap)) c hc
    show off < c.start_offset
    omega

/-- Every chunk of a window chunking has at most `size` characters, the
final chunk included. -/
theorem windowChunks_sizes (pid : String) (size overlap : Nat) (h : overlap < size) :
    ∀ (off : Nat) (s : List Char),
      ∀ c ∈ windowChunks pid size overlap h off s, c.text.length ≤ size := by
  intro off s
  induction off, s using windowChunks.induct pid size overlap h with
  | case1 off s hle =>
    rw [windowChunks, if_pos hle]
    intro c hc
    rw [List.mem_singleton] at hc
    subst hc
    exact hle
  | case2 off s hle ih =>
    rw [windowChunks, if_neg hle]
    intro c hc
    rcases List.mem_cons.mp hc with rfl | hmem
    · simp only [List.length_take]
      omega
    · exact ih c hmem

/-- C4 (spec-modelled): for every valid configuration, `split_documents`
succeeds, and for every document, concatenating the texts of its chunks
with the `chunk_overlap`-character overlap region removed from each chunk
after the first reconstructs the original document text — exactly: the
model places boundaries at character positions, so no whitespace
normalization is needed. -/
theorem split_documents_roundtrip (size overlap : Nat) (h : overlap < size)
    (docs : List RawDocument) :
    split_documents size overlap docs
      = Except.ok (docs.flatMap fun d => splitText d.id size overlap h d.text) ∧
    ∀ d : RawDocument,
      dechunk overlap ((splitText d.id size overlap h d.text).map Chunk.text) = d.text := by
  constructor
  · rw [split_documents, dif_neg (by omega)]
  · intro d
    rw [splitText]
    split
    · next heq => rw [heq]; simp [dechunk]
    · exact windowChunks_dechunk d.id size overlap h 0 d.text

/-- Witness for C4: an 8-character document, chunk size 5, overlap 2:
chunks `"abcde"` (offset 0) and `"defgh"` (offset 3); dropping the
2-character overlap from the second and concatenating restores the text. -/
theorem split_documents_roundtrip_witness :
    (2 : Nat) < 5 ∧
    dechunk 2 ((splitText "d1" 5 2 (by decide) ['a', 'b', 'c', 'd', 'e', 'f', 'g', 'h']).map
        Chunk.text)
      = ['a', 'b', 'c', 'd', 'e', 'f', 'g', 'h'] :=
  ⟨by decide,
    (split_documents_roundtrip 5 2 (by decide) []).2
      ⟨"d1", ['a', 'b', 'c', 'd', 'e', 'f', 'g', 'h']⟩⟩

/-- C5 (spec-modelled): a document with empty text yields zero chunks; a
document whose text is shorter than `chunk_size` yields exactly one chunk,
whose `start_offset` is 0 and whose text is the whole document — no
overlap applied. -/
theorem split_short_doc (size overlap : Nat) (h : overlap < size) (pid : String)
    (text : List Char) :
    splitText pid size overlap h [] = [] ∧
    (text ≠ [] → text.length < size →
      splitText pid size overlap h text = [⟨pid, 0, text⟩]) := by
  constructor
  · rw [splitText]
    simp
  · intro hne hlt
    rw [splitText, if_neg hne, windowChunks, if_pos (le_of_lt hlt)]

/-- Witness for C5 at the repository's configuration (`chunk_size = 1000`,
`chunk_overlap = 100`): a 2-character document becomes one chunk at
offset 0 holding the whole text. -/
theorem split_short_doc_witness :
    CHUNK_OVERLAP < CHUNK_SIZE ∧
    (['h', 'i'] : List Char) ≠ [] ∧
    (['h', 'i'] : List Char).length < CHUNK_SIZE ∧
    splitText "d1" CHUNK_SIZE CHUNK_OVERLAP (by decide) ['h', 'i']
      = [⟨"d1", 0, ['h', 'i']⟩] :=
  ⟨by decide, by decide, by decide,
    (split_short_doc CHUNK_SIZE CHUNK_OVERLAP (by decide) "d1" ['h', 'i']).2
      (by decide) (by decide)⟩

/-- C6 (spec-modelled): whenever `chunk_overlap ≥ chunk_size`, the
splitting operation fails with `ConfigError` for every input document
list, producing no chunks. -/
theorem split_config_error (size overlap : Nat) (docs : List RawDocument)
    (hge : size ≤ overlap) :
    split_documents size overlap docs = Except.error SplitFailure.configError := by
  rw [split_documents, dif_pos hge]

/-- Witness for C6: overlap 10 with chunk size 10 fails with
`ConfigError` on a non-trivial input. -/
theorem split_config_error_witness :
    (10 : Nat) ≤ 10 ∧
    split_documents 10 10 [⟨"d1", ['x', 'y', 'z']⟩]
      = Except.error SplitFailure.configError :=
  ⟨by decide, split_config_error 10 10 [⟨"d1", ['x', 'y', 'z']⟩] (by decide)⟩

/-- C7 (spec-modelled): within the chunk sequence split from one document,
the `start_offset` values are strictly increasing, and every chunk's text
has length at most `chunk_size` — the final chunk included, which is
stronger than the claim's allowance for a shorter tail. -/
theorem split_offsets_strict_and_sizes (size overlap : Nat) (h : overlap < size)
    (pid : String) (text : List Char) :
    (splitText pid size overlap h text).Pairwise
        (fun a b => a.start_offset < b.start_offset) ∧
    ∀ c ∈ splitText pid size overlap h text, c.text.length ≤ size := by
  rw [splitText]
  split
  · simp
  · exact ⟨windowChunks_offsets_strict pid size overlap h 0 text,
      windowChunks_sizes pid size overlap h 0 text⟩

/-- Witness for C7: chunk size 5, overlap 2 on an 8-character text:
offsets are 0 and 3 (strictly increasing), both chunks within size. -/
theorem split_offsets_strict_and_sizes_witness :
    (2 : Nat) < 5 ∧
    ((splitText "d1" 5 2 (by decide) ['a', 'b', 'c', 'd', 'e', 'f', 'g', 'h']).map
        Chunk.start_offset = [0, 3] ∧
      (splitText "d1" 5 2 (by decide) ['a', 'b', 'c', 'd', 'e', 'f', 'g', 'h']).Pairwise
        (fun a b => a.start_offset < b.start_offset)) := by
  refine ⟨by decide, ?_, (split_offsets_strict_and_sizes 5 2 (by decide) "d1"
    ['a', 'b', 'c', 'd', 'e', 'f', 'g', 'h']).1⟩
  simp [splitText, windowChunks]

/-- Witness for the amended C9: two deliveries of two hits with the same
head score and source, one violating non-increasing order, produce the same
returned list for the first and identical logs. -/
theorem query_returns_as_delivered_no_validation_witness :
    ("d" : String) ≠ "" ∧
    (query_vector_store (some "d") "e"
        (fun _ _ => Except.ok [⟨"a", "s", 5⟩, ⟨"b", "s", 9⟩]) "q" 2).result
      = Except.ok [⟨"a", "s", 5⟩, ⟨"b", "s", 9⟩] ∧
    (query_vector_store (some "d") "e"
        (fun _ _ => Except.ok [⟨"a", "s", 5⟩, ⟨"b", "s", 9⟩]) "q" 2).logs
      = (query_vector_store (some "d") "e"
        (fun _ _ => Except.ok [⟨"a", "s", 5⟩, ⟨"b", "s", 4⟩]) "q" 2).logs := by
  have h := query_returns_as_delivered_no_validation "d" "e"
    (fun _ _ => Except.ok [⟨"a", "s", 5⟩, ⟨"b", "s", 9⟩])
    (fun _ _ => Except.ok [⟨"a", "s", 5⟩, ⟨"b", "s", 4⟩])
    "q" 2 [⟨"a", "s", 5⟩, ⟨"b", "s", 9⟩] [⟨"a", "s", 5⟩, ⟨"b", "s", 4⟩]
    (by decide) rfl rfl
  exact ⟨by decide, h.1, h.2 (by decide) (by decide)⟩

end VertexRag
